import Mathlib

/-!
Verification of the admin-dashboard booking page
(`src/pages/admin/AdminDashboard.tsx`).

The component keeps an ordered list of bookings, filters it by status for
display, and exposes three mutation handlers (approve, reject, generate
meeting link) plus an initial load guarded by a session check.  We embed
the data model and each handler as a pure Lean function: the asynchronous
remote call becomes an explicit `Except JsError _` argument (the result
the call would produce), the `window.prompt` result becomes an
`Option String` argument, and the observable effects (new store,
notifications, navigation, whether the remote call was issued and with
which reason) are collected in an outcome record.
-/

/-- A booking record.  `status` is one of the string literals
"pending" / "approved" / "rejected" in the source; `rejectionReason` and
`meetingLink` are optional fields.  All other descriptive fields of the
TypeScript `Booking` type are never touched by this page and are folded
into the opaque `payload`. -/
structure Booking where
  id : String
  status : String
  rejectionReason : Option String := none
  meetingLink : Option String := none
  payload : String := ""
deriving DecidableEq, Repr

/-- A JavaScript error as observed by the catch blocks: `message` and
`code` may each be absent (`undefined`). -/
structure JsError where
  message : Option String := none
  code : Option String := none
deriving DecidableEq, Repr

/-- JavaScript truthiness of `msg || fallback` for an optional string:
the fallback is used when the message is absent or the empty string
(both are falsy in JavaScript). -/
def jsOrString : Option String → String → String
  | none, fb => fb
  | some m, fb => if m = "" then fb else m

/-- A toast notification emitted by the page. -/
inductive Notification where
  | success (msg : String)
  | error (msg : String)
deriving DecidableEq, Repr

/-- The local patch applied to the booking store on remote success:
`prev.map (b => b.id === bookingId ? merge(b) : b)` in the source. -/
def patchStore (bookingId : String) (mergeFields : Booking → Booking)
    (store : List Booking) : List Booking :=
  store.map (fun b => if b.id = bookingId then mergeFields b else b)

/-- The merge `{ ...b, status: 'approved' }` used by `handleApprove`. -/
def approveMerge (b : Booking) : Booking :=
  { b with status := "approved" }

/-- The merge `{ ...b, status: 'rejected', rejectionReason: reason }`
used by `handleReject`. -/
def rejectMerge (reason : String) (b : Booking) : Booking :=
  { b with status := "rejected", rejectionReason := some reason }

/-- The merge `{ ...b, meetingLink: meetLink }` used by
`handleGenerateMeetLink`. -/
def meetLinkMerge (link : String) (b : Booking) : Booking :=
  { b with meetingLink := some link }

/-- Observable outcome of one handler invocation: the booking store after
the handler returns, the toasts it emitted in order, whether it navigated
to `/admin/login`, whether the remote call was issued, and the `reason`
argument passed to `updateBookingStatus` when one was passed. -/
structure HandlerOutcome where
  store : List Booking
  notifications : List Notification
  navigatedToLogin : Bool
  remoteCalled : Bool
  remoteReason : Option String := none
deriving DecidableEq, Repr

/-- `handleApprove` from the source: awaits
`updateBookingStatus(bookingId, 'approved')`; on success patches the
store and toasts success; on failure toasts `error.message || fallback`
and navigates to login exactly when the message equals
"Unauthorized access". -/
def handleApprove (store : List Booking) (bookingId : String)
    (remote : Except JsError Unit) : HandlerOutcome :=
  match remote with
  | .ok _ =>
      { store := patchStore bookingId approveMerge store
        notifications := [.success "Booking approved successfully"]
        navigatedToLogin := false
        remoteCalled := true }
  | .error e =>
      { store := store
        notifications := [.error (jsOrString e.message "Failed to approve booking")]
        navigatedToLogin := e.message == some "Unauthorized access"
        remoteCalled := true }

/-- `handleReject` from the source: first `window.prompt` for a reason;
`if (reason === null) return;` aborts before anything else.  Otherwise it
awaits `updateBookingStatus(bookingId, 'rejected', reason)` and follows
the same success/failure protocol as `handleApprove`. -/
def handleReject (store : List Booking) (bookingId : String)
    (promptResult : Option String) (remote : Except JsError Unit) : HandlerOutcome :=
  match promptResult with
  | none =>
      { store := store
        notifications := []
        navigatedToLogin := false
        remoteCalled := false }
  | some reason =>
      match remote with
      | .ok _ =>
          { store := patchStore bookingId (rejectMerge reason) store
            notifications := [.success "Booking rejected successfully"]
            navigatedToLogin := false
            remoteCalled := true
            remoteReason := some reason }
      | .error e =>
          { store := store
            notifications := [.error (jsOrString e.message "Failed to reject booking")]
            navigatedToLogin := e.message == some "Unauthorized access"
            remoteCalled := true
            remoteReason := some reason }

/-- `handleGenerateMeetLink` from the source: awaits
`generateMeetingLink(bookingId)`; on success patches `meetingLink` with
the returned link and toasts success; on failure same protocol as
`handleApprove`. -/
def handleGenerateMeetLink (store : List Booking) (bookingId : String)
    (remote : Except JsError String) : HandlerOutcome :=
  match remote with
  | .ok meetLink =>
      { store := patchStore bookingId (meetLinkMerge meetLink) store
        notifications := [.success "Meeting link generated successfully"]
        navigatedToLogin := false
        remoteCalled := true }
  | .error e =>
      { store := store
        notifications := [.error (jsOrString e.message "Failed to generate meeting link")]
        navigatedToLogin := e.message == some "Unauthorized access"
        remoteCalled := true }

/-- An authenticated principal; its identity is opaque to this page. -/
abbrev Principal := String

/-- Observable outcome of the initial `loadBookings` effect. -/
structure LoadOutcome where
  store : List Booking
  notifications : List Notification
  navigatedToLogin : Bool
  fetchAttempted : Bool
deriving DecidableEq, Repr

/-- `loadBookings` from the source's `useEffect`: if `auth.currentUser`
is absent, navigate to login and return; if the user is not an admin,
toast "Unauthorized access", navigate, and return; otherwise await
`fetchBookings()`.  On fetch failure, toast `error.message || fallback`
and navigate when `error.code === 'permission-denied'` or
`error.message === 'Unauthorized access'`. -/
def loadBookings (currentUser : Option Principal) (adminCheck : Bool)
    (fetchResult : Except JsError (List Booking)) : LoadOutcome :=
  match currentUser with
  | none =>
      { store := []
        notifications := []
        navigatedToLogin := true
        fetchAttempted := false }
  | some _ =>
      if !adminCheck then
        { store := []
          notifications := [.error "Unauthorized access"]
          navigatedToLogin := true
          fetchAttempted := false }
      else
        match fetchResult with
        | .ok data =>
            { store := data
              notifications := []
              navigatedToLogin := false
              fetchAttempted := true }
        | .error e =>
            { store := []
              notifications := [.error (jsOrString e.message "Failed to fetch bookings")]
              navigatedToLogin :=
                (e.code == some "permission-denied") || (e.message == some "Unauthorized access")
              fetchAttempted := true }

/-- The rows the component passes to `BookingTable`:
`bookings.filter(b => statusFilter === 'all' || b.status === statusFilter)`.
The free-text `globalFilter` is handed to the table as a separate prop
and is not applied by this layer. -/
def visibleBookings (store : List Booking) (globalFilter : String)
    (statusFilter : String) : List Booking :=
  store.filter (fun b => statusFilter == "all" || b.status == statusFilter)

/-! ### Helper lemmas about the store patch -/

theorem patchStore_length (bookingId : String) (mergeFields : Booking → Booking)
    (store : List Booking) :
    (patchStore bookingId mergeFields store).length = store.length :=
  store.length_map _

theorem patchStore_get (bookingId : String) (mergeFields : Booking → Booking)
    (store : List Booking) (j : Fin store.length) :
    (patchStore bookingId mergeFields store).get
        (Fin.cast (patchStore_length bookingId mergeFields store).symm j) =
      if (store.get j).id = bookingId then mergeFields (store.get j) else store.get j := by
  simp [patchStore, List.getElem_map]

/-- A booking used as a concrete input in witnesses. -/
def demoBooking : Booking := { id := "1", status := "pending" }

/-- C5: when the rejection-reason prompt returns null, `handleReject`
returns before the try block: the store is untouched, no toast is
emitted, no remote call is issued and no navigation happens, whatever
the remote call would have produced. -/
theorem reject_cancel_aborts (store : List Booking) (bookingId : String)
    (remote : Except JsError Unit) :
    (handleReject store bookingId none remote).store = store ∧
    (handleReject store bookingId none remote).notifications = [] ∧
    (handleReject store bookingId none remote).remoteCalled = false ∧
    (handleReject store bookingId none remote).navigatedToLogin = false :=
  ⟨rfl, rfl, rfl, rfl⟩

/-- C1: if the remote call of any mutation fails, the store handed back
is the one passed in (no patch before confirmed success), and a single
error toast is emitted whose text is the error's message when the error
carries one (a non-empty message, the only truthy case of
`error.message || fallback`), and the handler's generic fallback text
otherwise. -/
theorem mutation_remote_failure_frame (store : List Booking) (bookingId : String)
    (promptReason : String) (e : JsError) :
    (handleApprove store bookingId (Except.error e)).store = store ∧
    (handleReject store bookingId (some promptReason) (Except.error e)).store = store ∧
    (handleGenerateMeetLink store bookingId (Except.error e)).store = store ∧
    (∀ m : String, e.message = some m → m ≠ "" →
      (handleApprove store bookingId (Except.error e)).notifications =
          [Notification.error m] ∧
      (handleReject store bookingId (some promptReason) (Except.error e)).notifications =
          [Notification.error m] ∧
      (handleGenerateMeetLink store bookingId (Except.error e)).notifications =
          [Notification.error m]) ∧
    ((e.message = none ∨ e.message = some "") →
      (handleApprove store bookingId (Except.error e)).notifications =
          [Notification.error "Failed to approve booking"] ∧
      (handleReject store bookingId (some promptReason) (Except.error e)).notifications =
          [Notification.error "Failed to reject booking"] ∧
      (handleGenerateMeetLink store bookingId (Except.error e)).notifications =
          [Notification.error "Failed to generate meeting link"]) := by
  refine ⟨rfl, rfl, rfl, ?_, ?_⟩
  · intro m hm hne
    simp [handleApprove, handleReject, handleGenerateMeetLink, jsOrString, hm, hne]
  · rintro (hm | hm) <;>
      simp [handleApprove, handleReject, handleGenerateMeetLink, jsOrString, hm]

theorem mutation_remote_failure_frame_witness :
    (handleApprove [demoBooking] "1"
        (Except.error { message := some "boom", code := none })).notifications =
      [Notification.error "boom"] ∧
    (handleApprove [demoBooking] "1"
        (Except.error { message := some "boom", code := none })).store = [demoBooking] :=
  ⟨((mutation_remote_failure_frame [demoBooking] "1" "r"
        { message := some "boom", code := none }).2.2.2.1 "boom" rfl (by decide)).1,
    (mutation_remote_failure_frame [demoBooking] "1" "r"
        { message := some "boom", code := none }).1⟩

/-- C2 as stated is false: in the mutation handlers the permission-denied
error code is never consulted (only `loadBookings` checks it).  Concretely,
an approve failure whose error carries `code = "permission-denied"` but a
message different from the sentinel does not navigate to login. -/
theorem mutation_code_only_does_not_navigate :
    (handleApprove [demoBooking] "1"
        (Except.error { message := some "boom", code := some "permission-denied" })).navigatedToLogin
      = false := rfl

/-- C2 amended: the mutation handlers navigate to the login surface
exactly when the error's message equals the sentinel "Unauthorized
access"; the permission-denied error code triggers navigation only in
the initial load handler, where it is checked alongside the sentinel. -/
theorem mutation_unauthorized_navigation (store : List Booking) (bookingId : String)
    (promptReason : String) (p : Principal) (e : JsError) :
    ((handleApprove store bookingId (Except.error e)).navigatedToLogin = true ↔
        e.message = some "Unauthorized access") ∧
    ((handleReject store bookingId (some promptReason) (Except.error e)).navigatedToLogin = true ↔
        e.message = some "Unauthorized access") ∧
    ((handleGenerateMeetLink store bookingId (Except.error e)).navigatedToLogin = true ↔
        e.message = some "Unauthorized access") ∧
    ((loadBookings (some p) true (Except.error e)).navigatedToLogin = true ↔
        (e.code = some "permission-denied" ∨ e.message = some "Unauthorized access")) := by
  refine ⟨?_, ?_, ?_, ?_⟩ <;>
    simp [handleApprove, handleReject, handleGenerateMeetLink, loadBookings]

/-- C3: for an id that occurs in the store, the success patch preserves
the length (no record added or removed) and, position by position, maps
the record whose id matches to the field-merge of its prior value and
leaves every other record unchanged. -/
theorem patch_changes_only_target (store : List Booking) (bookingId : String)
    (mergeFields : Booking → Booking) (hocc : bookingId ∈ store.map Booking.id) :
    (patchStore bookingId mergeFields store).length = store.length ∧
    ∀ j : Fin store.length,
      (patchStore bookingId mergeFields store).get
          (Fin.cast (patchStore_length bookingId mergeFields store).symm j) =
        if (store.get j).id = bookingId then mergeFields (store.get j) else store.get j :=
  ⟨patchStore_length bookingId mergeFields store,
    fun j => patchStore_get bookingId mergeFields store j⟩

theorem patch_changes_only_target_witness :
    ("1" ∈ [demoBooking].map Booking.id) ∧
    (patchStore "1" approveMerge [demoBooking]).length = [demoBooking].length :=
  ⟨by decide, (patch_changes_only_target [demoBooking] "1" approveMerge (by decide)).1⟩

/-- C4: the success patch for an id that occurs nowhere in the store is
the identity: every record falls in the `else` branch of the mapped
conditional, so the mapped list equals the original. -/
theorem patch_missing_id_noop (store : List Booking) (bookingId : String)
    (mergeFields : Booking → Booking) (h : ∀ b ∈ store, b.id ≠ bookingId) :
    patchStore bookingId mergeFields store = store := by
  induction store with
  | nil => rfl
  | cons b bs ih =>
    have hb : b.id ≠ bookingId := h b (List.mem_cons_self b bs)
    have hrest := ih (fun c hc => h c (List.mem_cons_of_mem b hc))
    simp only [patchStore, List.map_cons] at hrest ⊢
    rw [if_neg hb, hrest]

theorem patch_missing_id_noop_witness :
    (∀ b ∈ [demoBooking], b.id ≠ "2") ∧
    patchStore "2" approveMerge [demoBooking] = [demoBooking] :=
  ⟨by decide, patch_missing_id_noop [demoBooking] "2" approveMerge (by decide)⟩

/-- C6: with the status selector on "approved", the rows handed to
`BookingTable` are exactly the order-preserving subsequence of the store
whose records have status "approved", whatever the free-text query is —
the query is passed to the table as a prop and never applied here. -/
theorem visible_approved_filter (store : List Booking) (q : String) :
    visibleBookings store q "approved" =
      store.filter (fun b => b.status == "approved") ∧
    (∀ q' : String, visibleBookings store q' "approved" = visibleBookings store q "approved") ∧
    (visibleBookings store q "approved").Sublist store ∧
    ∀ b : Booking, b ∈ visibleBookings store q "approved" ↔
        (b ∈ store ∧ b.status = "approved") := by
  refine ⟨?_, fun q' => rfl, List.filter_sublist store, ?_⟩
  · simp [visibleBookings]
  · intro b
    simp [visibleBookings]

/-- C7: with an empty query and the status selector on "all", the rows
handed to `BookingTable` are the whole store in its original order; the
computation is a pure filter and does not alter the store. -/
theorem visible_all_identity (store : List Booking) :
    visibleBookings store "" "all" = store := by
  simp [visibleBookings]

/-- C8: with no authenticated principal, `loadBookings` navigates to
login, attempts no fetch and emits no toast; with an authenticated but
non-admin principal, it emits the "Unauthorized access" error toast,
navigates to login, and attempts no fetch — in both cases whatever the
fetch would have returned. -/
theorem load_guard_behaviour (adminCheck : Bool) (p : Principal)
    (fr fr2 : Except JsError (List Booking)) :
    (loadBookings none adminCheck fr).navigatedToLogin = true ∧
    (loadBookings none adminCheck fr).fetchAttempted = false ∧
    (loadBookings none adminCheck fr).notifications = [] ∧
    (loadBookings (some p) false fr2).notifications =
        [Notification.error "Unauthorized access"] ∧
    (loadBookings (some p) false fr2).navigatedToLogin = true ∧
    (loadBookings (some p) false fr2).fetchAttempted = false :=
  ⟨rfl, rfl, rfl, rfl, rfl, rfl⟩

/-- C9 as stated is false: the approve patch `{ ...b, status: 'approved' }`
spreads the prior record and never clears `rejectionReason`.  Starting
from a loaded pending booking, a successful Reject (reason
"schedule conflict") followed by a successful Approve of the same id —
both exposed operations — yields a record whose most recent status
transition was to approved yet which still carries the rejection
reason. -/
theorem approve_keeps_rejection_reason_cex :
    (handleApprove
        (handleReject [{ id := "1", status := "pending" }] "1" (some "schedule conflict")
            (Except.ok ())).store
        "1" (Except.ok ())).store =
      [{ id := "1", status := "approved", rejectionReason := some "schedule conflict" }] := by
  decide

/-- C9 amended: a successful Reject sets the target record's status to
"rejected" and its `rejectionReason` to the supplied reason (records with
other ids untouched), but neither Approve nor GenerateMeetingLink ever
modifies any record's `rejectionReason` — so `rejectionReason` being set
only shows some earlier transition to rejected (or a loaded value), not
that the most recent transition was to rejected: a record later approved
retains its reason. -/
theorem rejection_reason_dynamics (store : List Booking) (bookingId : String)
    (reason link : String) :
    (∀ j : Fin store.length,
      (handleReject store bookingId (some reason) (Except.ok ())).store.get
          (Fin.cast (patchStore_length bookingId (rejectMerge reason) store).symm j) =
        if (store.get j).id = bookingId then
          { store.get j with status := "rejected", rejectionReason := some reason }
        else store.get j) ∧
    (∀ j : Fin store.length,
      ((handleApprove store bookingId (Except.ok ())).store.get
          (Fin.cast (patchStore_length bookingId approveMerge store).symm j)).rejectionReason =
        (store.get j).rejectionReason) ∧
    (∀ j : Fin store.length,
      ((handleGenerateMeetLink store bookingId (Except.ok link)).store.get
          (Fin.cast (patchStore_length bookingId (meetLinkMerge link) store).symm j)).rejectionReason =
        (store.get j).rejectionReason) := by
  refine ⟨fun j => patchStore_get bookingId (rejectMerge reason) store j, fun j => ?_, fun j => ?_⟩
  · have h := patchStore_get bookingId approveMerge store j
    show ((patchStore bookingId approveMerge store).get _).rejectionReason = _
    rw [h]
    split <;> rfl
  · have h := patchStore_get bookingId (meetLinkMerge link) store j
    show ((patchStore bookingId (meetLinkMerge link) store).get _).rejectionReason = _
    rw [h]
    split <;> rfl

/-- C10: an empty-string prompt result is not null, so Reject proceeds:
the remote call is issued with the empty-string reason, and on success
the target record's status becomes "rejected" with `rejectionReason`
equal to the empty string, every other record unchanged. -/
theorem reject_empty_reason_proceeds (store : List Booking) (bookingId : String) :
    (handleReject store bookingId (some "") (Except.ok ())).remoteCalled = true ∧
    (handleReject store bookingId (some "") (Except.ok ())).remoteReason = some "" ∧
    (handleReject store bookingId (some "") (Except.ok ())).notifications =
        [Notification.success "Booking rejected successfully"] ∧
    ∀ j : Fin store.length,
      (handleReject store bookingId (some "") (Except.ok ())).store.get
          (Fin.cast (patchStore_length bookingId (rejectMerge "") store).symm j) =
        if (store.get j).id = bookingId then
          { store.get j with status := "rejected", rejectionReason := some "" }
        else store.get j :=
  ⟨rfl, rfl, rfl, fun j => patchStore_get bookingId (rejectMerge "") store j⟩
